import Mathlib

/-!
Shallow embedding of the uncertainty-propagation computation of the
DataHandling repository (`Row1DataSummary/Uncertainity.py` and
`Row2DataSummary/10K/R2_Uncertainity10K.py`).

Numbers are modelled as exact rationals; Python's `round(x, 3)` is modelled
as round-half-to-even on thousandths.
-/

unseal Rat.mul Rat.inv Rat.sub Rat.add Rat.ofScientific

namespace DataHandling

/-- Round a rational to the nearest integer, ties to even
(the rounding mode of Python's builtin `round`). -/
def roundHalfEvenInt (x : ℚ) : ℤ :=
  if x - ⌊x⌋ < 1/2 then ⌊x⌋
  else if 1/2 < x - ⌊x⌋ then ⌊x⌋ + 1
  else if ⌊x⌋ % 2 = 0 then ⌊x⌋ else ⌊x⌋ + 1

/-- Python's `round(x, 3)`: round to the nearest multiple of `1/1000`. -/
def round3 (x : ℚ) : ℚ := (roundHalfEvenInt (x * 1000) : ℚ) / 1000

/-- A per-(cell, trial) linear calibration fit, `torque = slope * zHeight + intercept`
(`all_cells_equations` entries in the source). -/
structure TrialFit where
  slope : ℚ
  intercept : ℚ
  r_squared : ℚ
deriving DecidableEq

/-- The function `calculate_z_height` from both uncertainty scripts:
`z_height = (torque - intercept) / slope`, rounded to 3 decimal places. -/
def calculate_z_height (torque slope intercept : ℚ) : ℚ :=
  round3 ((torque - intercept) / slope)

/-- Python's `max` of a nonempty list, modelled with a default of `0` for `[]`
(the scripts only ever apply it to nonempty lists). -/
def listMax (l : List ℚ) : ℚ := l.foldl max (l.headD 0)

/-- Python's `min` of a nonempty list, modelled with a default of `0` for `[]`. -/
def listMin (l : List ℚ) : ℚ := l.foldl min (l.headD 0)

/-- The per-trial inverted Z-heights of one cell at one torque level
(`z_heights_for_torque` in the source). -/
def zHeights (torque : ℚ) (fits : List TrialFit) : List ℚ :=
  fits.map fun f => calculate_z_height torque f.slope f.intercept

/-- Source `min_val = np.min(z_array)`. -/
def min_val (torque : ℚ) (fits : List TrialFit) : ℚ := listMin (zHeights torque fits)

/-- Source `max_val = np.max(z_array)`. -/
def max_val (torque : ℚ) (fits : List TrialFit) : ℚ := listMax (zHeights torque fits)

/-- Source `range_val = max_val - min_val`. -/
def range_val (torque : ℚ) (fits : List TrialFit) : ℚ :=
  max_val torque fits - min_val torque fits

/-- Source `steepest_slope = max([eq_data['slope'] for eq_data in cell_equations.values()])`. -/
def steepest_slope (fits : List TrialFit) : ℚ := listMax (fits.map TrialFit.slope)

/-- The spec's steepest slope: maximum of the absolute values of the slopes. -/
def steepest_abs_slope (fits : List TrialFit) : ℚ :=
  listMax (fits.map fun f => |f.slope|)

/-- Source `torque_uncertainty = steepest_slope * range_val`. -/
def torque_uncertainty (torque : ℚ) (fits : List TrialFit) : ℚ :=
  steepest_slope fits * range_val torque fits

/-- Source `steepest_trial = [name for name, eq_data in cell_equations.items()
if eq_data['slope'] == steepest_slope][0]`: the first trial name whose slope
equals the maximum slope (`none` only for an empty cell, where Python raises). -/
def steepest_trial (cell : List (String × TrialFit)) : Option String :=
  ((cell.filter fun p => p.2.slope = steepest_slope (cell.map Prod.snd)).head?).map Prod.fst

/-- One `row_data` of the loop body: `[torque] ++ z_heights ++ [min, max, range, uncertainty]`. -/
def uncertainty_row (fits : List TrialFit) (torque : ℚ) : List ℚ :=
  (torque :: zHeights torque fits) ++
    [min_val torque fits, max_val torque fits, range_val torque fits,
      torque_uncertainty torque fits]

/-- The function `analyze_cell_uncertainty` from `R2_Uncertainity10K.py` (also the inline
per-torque loop of `Uncertainity.py`): one result row per torque level. -/
def analyze_cell_uncertainty (fits : List TrialFit) (tls : List ℚ) : List (List ℚ) :=
  tls.map (uncertainty_row fits)

/-- Regression-coefficient table `all_cells_equations` of
`Row1DataSummary/Uncertainity.py` (ordered as in the Python dict). -/
def all_cells_equations_r1 : List (String × List (String × TrialFit)) :=
  [ ("Cell 1",
      [ ("Trial 1", ⟨117.200, -7722.002, 0.998⟩),
        ("Trial 2", ⟨91.571, -6008.560, 0.992⟩),
        ("Trial 3", ⟨92.900, -6105.849, 0.991⟩),
        ("Trial 4", ⟨89.057, -5849.702, 0.986⟩) ]),
    ("Cell 2",
      [ ("Trial 1", ⟨79.705, -5217.116, 0.980⟩),
        ("Trial 2", ⟨89.276, -5840.457, 0.992⟩),
        ("Trial 3", ⟨88.438, -5784.236, 0.994⟩),
        ("Trial 4", ⟨85.000, -5556.020, 0.993⟩) ]),
    ("Cell 3",
      [ ("Trial 1", ⟨61.893, -4031.049, 0.963⟩),
        ("Trial 2", ⟨89.500, -5849.869, 0.993⟩),
        ("Trial 3", ⟨87.933, -5745.053, 0.996⟩),
        ("Trial 4", ⟨106.133, -6950.891, 0.999⟩) ]),
    ("Cell 4",
      [ ("Trial 1", ⟨104.633, -6864.468, 0.975⟩),
        ("Trial 2", ⟨90.267, -5913.411, 0.992⟩),
        ("Trial 3", ⟨79.895, -5227.275, 0.980⟩),
        ("Trial 4", ⟨81.833, -5353.966, 0.993⟩) ]),
    ("Cell 5",
      [ ("Trial 1", ⟨202.667, -13305.203, 1.000⟩),
        ("Trial 2", ⟨186.167, -12207.618, 0.967⟩),
        ("Trial 3", ⟨125.367, -8187.536, 0.983⟩),
        ("Trial 4", ⟨85.981, -5605.991, 0.956⟩) ]),
    ("Cell 6",
      [ ("Trial 1", ⟨94.700, -6221.678, 0.993⟩),
        ("Trial 2", ⟨90.067, -5904.849, 0.993⟩),
        ("Trial 3", ⟨90.590, -5947.949, 0.992⟩),
        ("Trial 4", ⟨87.433, -5738.806, 0.991⟩) ]) ]

/-- Source `cell_1_equations = all_cells_equations['Cell 1']` in `Uncertainity.py`. -/
def cell_1_equations : List (String × TrialFit) :=
  (all_cells_equations_r1.lookup "Cell 1").getD []

/-- Source `torque_levels = np.array([45, 47, 49, 51, 53])` in `Uncertainity.py`. -/
def torque_levels_r1 : List ℚ := [45, 47, 49, 51, 53]

/-- Regression-coefficient table `all_cells_equations` of
`Row2DataSummary/10K/R2_Uncertainity10K.py` (ordered as in the Python dict). -/
def all_cells_equations_r2 : List (String × List (String × TrialFit)) :=
  [ ("Cell 1",
      [ ("Trial 1", ⟨87.767, -5759.814, 0.996⟩),
        ("Trial 2", ⟨135.833, -8941.347, 0.975⟩),
        ("Trial 3", ⟨89.133, -5838.821, 0.996⟩),
        ("Trial 4", ⟨84.895, -5557.924, 0.992⟩) ]),
    ("Cell 2",
      [ ("Trial 1", ⟨89.848, -5873.516, 0.991⟩),
        ("Trial 2", ⟨89.767, -5867.689, 0.993⟩),
        ("Trial 3", ⟨84.867, -5541.969, 0.994⟩),
        ("Trial 4", ⟨85.600, -5589.990, 0.995⟩) ]),
    ("Cell 3",
      [ ("Trial 1", ⟨90.657, -5921.408, 0.991⟩),
        ("Trial 2", ⟨93.767, -6128.208, 0.994⟩),
        ("Trial 3", ⟨88.867, -5801.210, 0.991⟩),
        ("Trial 4", ⟨87.552, -5714.667, 0.992⟩) ]),
    ("Cell 4",
      [ ("Trial 1", ⟨90.933, -5922.497, 0.992⟩),
        ("Trial 2", ⟨92.267, -6010.167, 0.991⟩),
        ("Trial 3", ⟨89.933, -5853.865, 0.994⟩),
        ("Trial 4", ⟨91.543, -5960.168, 0.990⟩) ]),
    ("Cell 5",
      [ ("Trial 1", ⟨94.700, -6176.787, 0.997⟩),
        ("Trial 2", ⟨99.500, -6502.016, 0.979⟩),
        ("Trial 3", ⟨93.600, -6102.294, 0.995⟩),
        ("Trial 4", ⟨94.567, -6165.921, 0.995⟩) ]),
    ("Cell 6",
      [ ("Trial 1", ⟨90.767, -5940.868, 0.996⟩),
        ("Trial 2", ⟨96.767, -6327.421, 0.991⟩),
        ("Trial 3", ⟨90.305, -5898.003, 0.993⟩),
        ("Trial 4", ⟨88.900, -5804.552, 0.994⟩) ]) ]

/-- Source `torque_levels = np.array([42, 45, 48, 51, 54, 57])` in `R2_Uncertainity10K.py`. -/
def torque_levels_r2 : List ℚ := [42, 45, 48, 51, 54, 57]

/-- The fit records of one cell, in trial order (`cell_equations.values()`). -/
def cellFits (cell : List (String × TrialFit)) : List TrialFit := cell.map Prod.snd

/-- The cells actually fed to the per-cell analysis loop: Cell 1 in
`Uncertainity.py`, all six cells in `R2_Uncertainity10K.py`. -/
def analyzed_cells : List (List TrialFit) :=
  cellFits cell_1_equations :: all_cells_equations_r2.map fun c => cellFits c.2

/-- Per-torque status classification of `Uncertainity.py` line 230. -/
def status_r1 (u : ℚ) : String :=
  if u < 0.2 then "LOW" else if u < 0.5 then "MEDIUM" else "HIGH"

/-- Performance status classification of `R2_Uncertainity10K.py` lines 235-242. -/
def status_r2 (u : ℚ) : String :=
  if u < 5 then "EXCELLENT"
  else if u < 10 then "GOOD"
  else if u < 20 then "ACCEPTABLE"
  else "NEEDS ATTENTION"

/-- Modelled from the spec: the source `calculate_z_height` does not guard
`slope == 0` (spec sections 4.1 and 7b note the source leaves it undefined);
the spec requires a faithful reimplementation to surface a division-by-zero
error instead of silently propagating an infinite or NaN Z-height. -/
def calculate_z_height_checked (torque slope intercept : ℚ) : Except String ℚ :=
  if slope = 0 then Except.error "division by zero: slope is 0"
  else Except.ok (calculate_z_height torque slope intercept)

/-- A rational that is an exact multiple of one thousandth, i.e. a value
expressible with three decimal places. -/
def isThousandthMultiple (q : ℚ) : Prop := ∃ n : ℤ, q = (n : ℚ) / 1000

/-- A two-trial cell whose trials share the exact maximum slope. -/
def tieCell : List (String × TrialFit) :=
  [("Trial 1", ⟨117.200, -7722.002, 0.998⟩), ("Trial 2", ⟨117.200, -6008.560, 0.992⟩)]

/-- Imperative state of the per-cell analysis loop: the two inputs
(`cell_equations` and `torque_levels`), the accumulated `results_data`, and
the position in the torque-level list. -/
structure LoopState where
  cell_equations : List TrialFit
  torque_levels : List ℚ
  results_data : List (List ℚ)
  i : ℕ

/-- One iteration of the `for torque in torque_levels` loop: append the row
for the current torque level; past the end of the list, do nothing. -/
def loop_step : LoopState → LoopState
  | ⟨fits, tls, acc, k⟩ =>
    if h : k < tls.length then ⟨fits, tls, acc ++ [uncertainty_row fits tls[k]], k + 1⟩
    else ⟨fits, tls, acc, k⟩

/-- Run `n` iterations of the loop. -/
def loop_run : ℕ → LoopState → LoopState
  | 0, s => s
  | n + 1, s => loop_run n (loop_step s)

/-- The whole loop of `analyze_cell_uncertainty`, started on the given inputs
with an empty `results_data`. -/
def analyze_run (fits : List TrialFit) (tls : List ℚ) : LoopState :=
  loop_run tls.length ⟨fits, tls, [], 0⟩

theorem roundHalfEvenInt_close (x : ℚ) : |x - (roundHalfEvenInt x : ℚ)| ≤ 1/2 := by
  unfold roundHalfEvenInt
  have h1 : ((⌊x⌋ : ℤ) : ℚ) ≤ x := Int.floor_le x
  have h2 : x < (⌊x⌋ : ℚ) + 1 := Int.lt_floor_add_one x
  split_ifs with ha hb hc
  · rw [abs_le]
    constructor <;> linarith
  · rw [abs_le]
    push_cast
    constructor <;> linarith
  · rw [abs_le]
    constructor <;> linarith [le_of_not_lt ha, le_of_not_lt hb]
  · rw [abs_le]
    push_cast
    constructor <;> linarith [le_of_not_lt ha, le_of_not_lt hb]

theorem round3_close (x : ℚ) : |round3 x - x| ≤ 1/2000 := by
  have h := roundHalfEvenInt_close (x * 1000)
  unfold round3
  have e : (roundHalfEvenInt (x * 1000) : ℚ) / 1000 - x
      = -((x * 1000 - (roundHalfEvenInt (x * 1000) : ℚ)) / 1000) := by ring
  rw [e, abs_neg, abs_div]
  have e2 : |(1000 : ℚ)| = 1000 := by norm_num
  rw [e2]
  linarith

/-- Claim C2: for every torque, every nonzero slope and every intercept,
`calculate_z_height` returns `(torque - intercept) / slope` rounded to 3
decimal places: the result is the rounding of that quotient, is an exact
multiple of `1/1000`, and is within half a thousandth of the quotient. -/
theorem calculate_z_height_spec (torque slope intercept : ℚ) (_hs : slope ≠ 0) :
    calculate_z_height torque slope intercept = round3 ((torque - intercept) / slope) ∧
    isThousandthMultiple (calculate_z_height torque slope intercept) ∧
    |calculate_z_height torque slope intercept - (torque - intercept) / slope| ≤ 1/2000 :=
  ⟨rfl, ⟨roundHalfEvenInt ((torque - intercept) / slope * 1000), rfl⟩,
    round3_close ((torque - intercept) / slope)⟩

theorem calculate_z_height_spec_w :
    (117.200 : ℚ) ≠ 0 ∧
      (calculate_z_height 45 117.200 (-7722.002) = round3 ((45 - (-7722.002)) / 117.200) ∧
       isThousandthMultiple (calculate_z_height 45 117.200 (-7722.002)) ∧
       |calculate_z_height 45 117.200 (-7722.002) - (45 - (-7722.002)) / 117.200| ≤ 1/2000) :=
  ⟨by decide, calculate_z_height_spec 45 117.200 (-7722.002) (by decide)⟩

/-- Claim C3, counterexample: on slope `117.200`, intercept `-7722.002`,
torque `45`, `calculate_z_height` does not return `66.267`;
`(45 - (-7722.002)) / 117.200 = 66.27134...`, which rounds to `66.271`. -/
theorem calculate_z_height_example_ne :
    calculate_z_height 45 117.200 (-7722.002) ≠ 66.267 := by decide

/-- Claim C3, amended: on slope `117.200`, intercept `-7722.002`, torque `45`,
`calculate_z_height` returns `66.271` (the quotient rounded to 3 decimals). -/
theorem calculate_z_height_example :
    calculate_z_height 45 117.200 (-7722.002) = 66.271 := by decide

/-- Claim C4: for every torque, nonzero slope and intercept, the inverted
Z-height round-trips through the forward line equation up to the 3-decimal
rounding error: `|slope * z + intercept - torque| ≤ |slope| * 0.0005`. -/
theorem calculate_z_height_round_trip (torque slope intercept : ℚ) (hs : slope ≠ 0) :
    |slope * calculate_z_height torque slope intercept + intercept - torque|
      ≤ |slope| * (1/2000) := by
  have key : slope * calculate_z_height torque slope intercept + intercept - torque
      = slope * (calculate_z_height torque slope intercept - (torque - intercept) / slope) := by
    field_simp
    ring
  rw [key, abs_mul]
  exact mul_le_mul_of_nonneg_left (round3_close ((torque - intercept) / slope)) (abs_nonneg slope)

theorem calculate_z_height_round_trip_w :
    (117.200 : ℚ) ≠ 0 ∧
      |117.200 * calculate_z_height 45 117.200 (-7722.002) + (-7722.002) - 45|
        ≤ |(117.200 : ℚ)| * (1/2000) :=
  ⟨by decide, calculate_z_height_round_trip 45 117.200 (-7722.002) (by decide)⟩

/-- Claim C7: with a zero slope the checked Z-height inversion surfaces a
division-by-zero error (it never silently returns a value), and with any
nonzero slope the error branch is unreachable: the finite rational
`(torque - intercept) / slope` rounded to 3 decimals is returned. -/
theorem zero_slope_surfaces_error :
    (∀ torque intercept : ℚ,
        calculate_z_height_checked torque 0 intercept
          = Except.error "division by zero: slope is 0") ∧
    (∀ torque slope intercept : ℚ, slope ≠ 0 →
        calculate_z_height_checked torque slope intercept
          = Except.ok (round3 ((torque - intercept) / slope))) := by
  constructor
  · intro torque intercept
    unfold calculate_z_height_checked
    rw [if_pos rfl]
  · intro torque slope intercept hs
    unfold calculate_z_height_checked
    rw [if_neg hs]
    rfl

theorem zero_slope_surfaces_error_w :
    (117.200 : ℚ) ≠ 0 ∧
      calculate_z_height_checked 45 117.200 (-7722.002)
        = Except.ok (round3 ((45 - (-7722.002)) / 117.200)) :=
  ⟨by decide, zero_slope_surfaces_error.2 45 117.200 (-7722.002) (by decide)⟩

theorem foldl_min_le (l : List ℚ) (a : ℚ) : l.foldl min a ≤ a := by
  induction l generalizing a with
  | nil => exact le_refl a
  | cons x t ih => exact le_trans (ih (min a x)) (min_le_left a x)

theorem le_foldl_max (l : List ℚ) (a : ℚ) : a ≤ l.foldl max a := by
  induction l generalizing a with
  | nil => exact le_refl a
  | cons x t ih => exact le_trans (le_max_left a x) (ih (max a x))

theorem listMin_le_listMax (l : List ℚ) (h : l ≠ []) : listMin l ≤ listMax l := by
  cases l with
  | nil => exact absurd rfl h
  | cons a t =>
    show List.foldl min (min a a) t ≤ List.foldl max (max a a) t
    rw [min_self, max_self]
    exact le_trans (foldl_min_le t a) (le_foldl_max t a)

/-- Claim C5: for every torque level and every cell with at least two trials,
the per-level statistics satisfy `max ≥ min` and `range ≥ 0` over the
per-trial inverted Z-heights. -/
theorem range_nonneg (torque : ℚ) (fits : List TrialFit) (h : 2 ≤ fits.length) :
    min_val torque fits ≤ max_val torque fits ∧ 0 ≤ range_val torque fits := by
  have hne : zHeights torque fits ≠ [] := by
    unfold zHeights
    intro hmap
    rw [List.map_eq_nil_iff] at hmap
    rw [hmap] at h
    exact absurd h (by decide)
  have hmm := listMin_le_listMax (zHeights torque fits) hne
  exact ⟨hmm, sub_nonneg.mpr hmm⟩

theorem range_nonneg_w :
    2 ≤ (cellFits cell_1_equations).length ∧
      (min_val 45 (cellFits cell_1_equations) ≤ max_val 45 (cellFits cell_1_equations) ∧
       0 ≤ range_val 45 (cellFits cell_1_equations)) :=
  ⟨by decide, range_nonneg 45 (cellFits cell_1_equations) (by decide)⟩

theorem map_abs_of_nonneg (l : List ℚ) (h : ∀ x ∈ l, 0 ≤ x) : l.map abs = l := by
  induction l with
  | nil => rfl
  | cons a t ih =>
    simp only [List.map_cons]
    rw [abs_of_nonneg (h a (by simp)), ih fun x hx => h x (by simp [hx])]

theorem steepest_abs_eq (fits : List TrialFit) (h : ∀ f ∈ fits, 0 ≤ f.slope) :
    steepest_abs_slope fits = steepest_slope fits := by
  unfold steepest_abs_slope steepest_slope
  have hmem : ∀ x ∈ fits.map TrialFit.slope, 0 ≤ x := List.forall_mem_map.mpr h
  rw [show (fits.map fun f => |f.slope|) = (fits.map TrialFit.slope).map abs from
      (List.map_map abs TrialFit.slope fits).symm,
    map_abs_of_nonneg (fits.map TrialFit.slope) hmem]

/-- Claim C1: for every cell of either script's table and every torque level
of the corresponding script, the computed uncertainty equals the maximum
absolute slope over the cell's trials times the range
`max(zHeights) - min(zHeights)` of the per-trial inverted Z-heights. -/
theorem uncertainty_invariant :
    (∀ cell ∈ all_cells_equations_r1, ∀ t ∈ torque_levels_r1,
        torque_uncertainty t (cellFits cell.2)
          = steepest_abs_slope (cellFits cell.2) * range_val t (cellFits cell.2)) ∧
    (∀ cell ∈ all_cells_equations_r2, ∀ t ∈ torque_levels_r2,
        torque_uncertainty t (cellFits cell.2)
          = steepest_abs_slope (cellFits cell.2) * range_val t (cellFits cell.2)) := by
  have h1 : ∀ cell ∈ all_cells_equations_r1, ∀ f ∈ cellFits cell.2, 0 ≤ f.slope := by decide
  have h2 : ∀ cell ∈ all_cells_equations_r2, ∀ f ∈ cellFits cell.2, 0 ≤ f.slope := by decide
  constructor
  · intro cell hc t _
    unfold torque_uncertainty
    rw [steepest_abs_eq (cellFits cell.2) (h1 cell hc)]
  · intro cell hc t _
    unfold torque_uncertainty
    rw [steepest_abs_eq (cellFits cell.2) (h2 cell hc)]

theorem uncertainty_invariant_w :
    ("Cell 1", cell_1_equations) ∈ all_cells_equations_r1 ∧ (45 : ℚ) ∈ torque_levels_r1 ∧
      torque_uncertainty 45 (cellFits cell_1_equations)
        = steepest_abs_slope (cellFits cell_1_equations)
            * range_val 45 (cellFits cell_1_equations) :=
  ⟨by decide, by decide,
    uncertainty_invariant.1 ("Cell 1", cell_1_equations) (by decide) 45 (by decide)⟩

/-- Claim C6: the per-level scheme maps `0.15` to `LOW` and the per-cell
scheme maps `7.0` to `GOOD`; in general each scheme classifies a value by the
first strict upper threshold it falls under. -/
theorem status_thresholds :
    status_r1 0.15 = "LOW" ∧ status_r2 7 = "GOOD" ∧
    ∀ u : ℚ,
      (u < 0.2 → status_r1 u = "LOW") ∧
      (0.2 ≤ u → u < 0.5 → status_r1 u = "MEDIUM") ∧
      (0.5 ≤ u → status_r1 u = "HIGH") ∧
      (u < 5 → status_r2 u = "EXCELLENT") ∧
      (5 ≤ u → u < 10 → status_r2 u = "GOOD") ∧
      (10 ≤ u → u < 20 → status_r2 u = "ACCEPTABLE") ∧
      (20 ≤ u → status_r2 u = "NEEDS ATTENTION") := by
  refine ⟨by decide, by decide, fun u => ⟨?_, ?_, ?_, ?_, ?_, ?_, ?_⟩⟩
  · intro h
    unfold status_r1
    rw [if_pos h]
  · intro h1 h2
    unfold status_r1
    rw [if_neg (not_lt.mpr h1), if_pos h2]
  · intro h1
    unfold status_r1
    rw [if_neg (not_lt.mpr (le_trans (by norm_num) h1)), if_neg (not_lt.mpr h1)]
  · intro h
    unfold status_r2
    rw [if_pos h]
  · intro h1 h2
    unfold status_r2
    rw [if_neg (not_lt.mpr h1), if_pos h2]
  · intro h1 h2
    unfold status_r2
    rw [if_neg (not_lt.mpr (le_trans (by norm_num) h1)), if_neg (not_lt.mpr h1), if_pos h2]
  · intro h1
    unfold status_r2
    rw [if_neg (not_lt.mpr (le_trans (by norm_num) h1)),
      if_neg (not_lt.mpr (le_trans (by norm_num) h1)), if_neg (not_lt.mpr h1)]

theorem status_thresholds_w : status_r1 0.3 = "MEDIUM" :=
  (status_thresholds.2.2 0.3).2.1 (by decide) (by decide)

theorem head?_filter_first {α : Type} (p : α → Bool) (l : List α) (a : α)
    (h : (l.filter p).head? = some a) :
    ∃ l1 l2, l = l1 ++ a :: l2 ∧ p a = true ∧ ∀ b ∈ l1, p b = false := by
  induction l with
  | nil => simp [List.filter] at h
  | cons x t ih =>
    rw [List.filter_cons] at h
    by_cases hx : p x = true
    · rw [if_pos hx, List.head?_cons] at h
      obtain rfl := Option.some.inj h
      exact ⟨[], t, rfl, hx, by simp⟩
    · rw [if_neg hx] at h
      obtain ⟨l1, l2, rfl, hpa, hl1⟩ := ih h
      refine ⟨x :: l1, l2, rfl, hpa, ?_⟩
      intro b hb
      rcases List.mem_cons.mp hb with hbx | hbl
      · rw [hbx]
        exact Bool.not_eq_true _ ▸ hx
      · exact hl1 b hbl

/-- Claim C8: whenever `steepest_trial` reports a trial name, that trial is
the first-encountered one in the cell's trial ordering whose slope attains
the cell's maximum slope; every earlier trial has a different slope, so when
two or more trials share the exact maximum the first one is selected (and,
the selection being a function of the cell alone, it is the same every time
it is recomputed for that cell). -/
theorem steepest_trial_first (cell : List (String × TrialFit)) (name : String)
    (h : steepest_trial cell = some name) :
    ∃ l1 p l2, cell = l1 ++ p :: l2 ∧ p.1 = name ∧
      p.2.slope = steepest_slope (cell.map Prod.snd) ∧
      ∀ q ∈ l1, q.2.slope ≠ steepest_slope (cell.map Prod.snd) := by
  unfold steepest_trial at h
  obtain ⟨pr, hpr, hname⟩ := Option.map_eq_some'.mp h
  obtain ⟨l1, l2, hcell, hpa, hl1⟩ := head?_filter_first _ cell pr hpr
  exact ⟨l1, pr, l2, hcell, hname, of_decide_eq_true hpa,
    fun q hq => of_decide_eq_false (hl1 q hq)⟩

theorem steepest_trial_first_w :
    ∃ l1 p l2, tieCell = l1 ++ p :: l2 ∧ p.1 = "Trial 1" ∧
      p.2.slope = steepest_slope (tieCell.map Prod.snd) ∧
      ∀ q ∈ l1, q.2.slope ≠ steepest_slope (tieCell.map Prod.snd) :=
  steepest_trial_first tieCell "Trial 1" (by decide)

/-- Claim C9: within any cell the scripts analyze, the steepest slope used in
the uncertainty computation does not depend on the torque level: at every
level with nonzero range the uncertainty divided by the range recovers the
cell's one `steepest_slope`, and hence the uncertainties of any two levels
with nonzero ranges are in the same ratio as their Z-height ranges. -/
theorem uncertainty_ratio (fits : List TrialFit) (hf : fits ∈ analyzed_cells) :
    (∀ t : ℚ, range_val t fits ≠ 0 →
        torque_uncertainty t fits / range_val t fits = steepest_slope fits) ∧
    ∀ t1 t2 : ℚ, range_val t1 fits ≠ 0 → range_val t2 fits ≠ 0 →
        torque_uncertainty t1 fits / torque_uncertainty t2 fits
          = range_val t1 fits / range_val t2 fits := by
  have hall : ∀ g ∈ analyzed_cells, steepest_slope g ≠ 0 := by decide
  have hs : steepest_slope fits ≠ 0 := hall fits hf
  constructor
  · intro t ht
    exact mul_div_cancel_right₀ (steepest_slope fits) ht
  · intro t1 t2 h1 h2
    have hu2 : torque_uncertainty t2 fits ≠ 0 := mul_ne_zero hs h2
    rw [div_eq_div_iff hu2 h2]
    unfold torque_uncertainty
    ring

theorem uncertainty_ratio_w :
    range_val 45 (cellFits cell_1_equations) ≠ 0 ∧
    range_val 47 (cellFits cell_1_equations) ≠ 0 ∧
      torque_uncertainty 45 (cellFits cell_1_equations)
          / torque_uncertainty 47 (cellFits cell_1_equations)
        = range_val 45 (cellFits cell_1_equations)
            / range_val 47 (cellFits cell_1_equations) :=
  ⟨by decide, by decide,
    (uncertainty_ratio (cellFits cell_1_equations) (by decide)).2 45 47
      (by decide) (by decide)⟩

theorem loop_run_eq (n : ℕ) :
    ∀ (fits : List TrialFit) (tls : List ℚ) (acc : List (List ℚ)) (k : ℕ),
      k + n = tls.length →
      loop_run n ⟨fits, tls, acc, k⟩
        = ⟨fits, tls, acc ++ (tls.drop k).map (uncertainty_row fits), tls.length⟩ := by
  induction n with
  | zero =>
    intro fits tls acc k hk
    rw [Nat.add_zero] at hk
    subst hk
    simp [loop_run, List.drop_length]
  | succ n ih =>
    intro fits tls acc k hk
    have hlt : k < tls.length := by omega
    have hd : tls.drop k = tls[k] :: tls.drop (k + 1) := (List.getElem_cons_drop tls k hlt).symm
    simp only [loop_run, loop_step]
    rw [dif_pos hlt]
    rw [ih fits tls (acc ++ [uncertainty_row fits tls[k]]) (k + 1) (by omega)]
    rw [hd]
    simp only [List.map_cons, List.append_assoc, List.cons_append, List.nil_append]

/-- Claim C10: the analysis loop never modifies its inputs - after the run
the cell's trial-fit list and the torque-level list held in the state are
unchanged - its accumulated `results_data` equals the functional
`analyze_cell_uncertainty`, and running it again on the inputs read back from
the final state returns an equal result. -/
theorem analyze_run_frame (fits : List TrialFit) (tls : List ℚ) :
    (analyze_run fits tls).cell_equations = fits ∧
    (analyze_run fits tls).torque_levels = tls ∧
    (analyze_run fits tls).results_data = analyze_cell_uncertainty fits tls ∧
    analyze_run (analyze_run fits tls).cell_equations (analyze_run fits tls).torque_levels
      = analyze_run fits tls := by
  have h := loop_run_eq tls.length fits tls [] 0 (Nat.zero_add _)
  have c1 : (analyze_run fits tls).cell_equations = fits := by
    unfold analyze_run
    rw [h]
  have c2 : (analyze_run fits tls).torque_levels = tls := by
    unfold analyze_run
    rw [h]
  have c3 : (analyze_run fits tls).results_data = analyze_cell_uncertainty fits tls := by
    unfold analyze_run
    rw [h]
    simp [analyze_cell_uncertainty]
  exact ⟨c1, c2, c3, by rw [c1, c2]⟩

end DataHandling
